import Mathlib

/-!
Shallow embedding of the core generation/composition logic of the
hl-create-video-AI repository, together with proofs checking the
natural-language specification against it.

Source files embedded here:
- modules/voice_generator.py (VoiceGenerator.generate_voice)
- modules/image_generator.py (ImageGenerator.generate_image,
  _generate_pollinations_image, generate_batch_images)
- modules/video_maker.py (_create_video_with_tts, _apply_ken_burns_effect,
  _concatenate_with_transitions)

Durations and media times are modelled as rationals (the source uses Python
floats for exact small decimal constants such as 0.5 and timing sums; no
float rounding is relevant to the claims checked here).
-/

namespace HLCV

/-! ### Provider fallback loop

Both VoiceGenerator.generate_voice (voice_generator.py lines 82-104) and
ImageGenerator.generate_image (image_generator.py lines 92-120) run the same
loop: for each provider in an ordered candidate list, call its generation
routine; on success return its artifact at once; on any exception record it
in the local variable last_error and continue with the next provider; after
the loop raise a single exception that interpolates only last_error. -/

/-- Outcome of invoking one provider once: the source dispatches to a
per-provider routine which either returns an artifact path or raises. -/
inductive AttemptResult where
  | success (artifact : String)
  | failure (reason : String)
deriving Repr, DecidableEq

/-- Whether a provider invocation raised (any exception is caught alike
by the fallback loop in the source). -/
def isFailure : AttemptResult → Bool
  | .success _ => false
  | .failure _ => true

/-- Boolean form of: every provider in the list fails. -/
def allFail (ps : List (String × AttemptResult)) : Bool :=
  ps.all fun p => isFailure p.2

/-- The reason a provider attempt carries, if it failed. -/
def reasonOf : AttemptResult → Option String
  | .success _ => none
  | .failure r => some r

/-- The value of the loop variable last_error after a list of attempts,
starting from a previous value: the reason of the last attempt when there
is one (the source overwrites last_error on every caught exception). -/
def lastErrorAfter (le : Option String) (ps : List (String × AttemptResult)) :
    Option String :=
  match ps.getLast? with
  | some p => reasonOf p.2
  | none => le

/-- The provider fallback loop (voice_generator.py lines 82-104,
image_generator.py lines 92-120). First component: the returned artifact,
or the error value (the last_error interpolated into the final exception).
Second component: the names of the providers actually invoked, in order. -/
def runChain : Option String → List (String × AttemptResult) →
    Except (Option String) String × List String
  | le, [] => (.error le, [])
  | _, (nm, .success a) :: _ => (.ok a, [nm])
  | _, (nm, .failure r) :: rest =>
    let res := runChain (some r) rest
    (res.1, nm :: res.2)

/-! ### Voice-generation entry point

VoiceGenerator.generate_voice (voice_generator.py lines 37-104) validates
its text argument before anything else: an empty text raises ValueError,
then the text is stripped (Python str.strip) and a now-empty text raises
ValueError; only afterwards is the output directory created and the
provider loop entered with the stripped text. -/

/-- Python str.strip on the character list: drop leading and trailing
whitespace. -/
def stripChars (s : List Char) : List Char :=
  ((s.dropWhile Char.isWhitespace).reverse.dropWhile Char.isWhitespace).reverse

/-- Python str.strip modelled on Lean strings. -/
def pyStrip (s : String) : String := ⟨stripChars s.data⟩

/-- Result of one generate_voice call. -/
inductive VoiceCall where
  | valueError
  | generated (textUsed : String) (artifact : String)
  | exhausted (lastError : Option String)
deriving Repr, DecidableEq

/-- The provider-loop part of generate_voice, entered with the already
stripped text (the source rebinds text = str(text).strip() before the
loop, so every per-provider routine receives the stripped text). -/
def dispatchProviders (t : String) (ps : List (String × AttemptResult)) :
    VoiceCall × List String :=
  match runChain none ps with
  | (.ok a, inv) => (.generated t a, inv)
  | (.error e, inv) => (.exhausted e, inv)

/-- VoiceGenerator.generate_voice (voice_generator.py lines 37-104): text
validation, stripping, then the provider loop. The second component lists
the providers invoked; it is empty when validation raises, since the raise
happens before the loop (and before any directory or file is touched). -/
def generate_voice (text : String) (ps : List (String × AttemptResult)) :
    VoiceCall × List String :=
  if text = "" then (.valueError, [])
  else if pyStrip text = "" then (.valueError, [])
  else dispatchProviders (pyStrip text) ps

/-! ### Ken Burns speed tier (video_maker.py lines 176-218)

_apply_ken_burns_effect picks zoom speed, pan speed and zoom extent from
the clip duration: duration < 2.0 gives the fast parameters, elif
duration < 5.0 the medium ones, else the slow ones. -/

/-- Parameters chosen by _apply_ken_burns_effect. -/
structure KenBurns where
  zoom_speed : ℚ
  pan_speed : ℚ
  zoom_factor : ℚ
deriving Repr, DecidableEq

/-- Fast tier of _apply_ken_burns_effect (0.8, 0.6, 0.3). -/
def fastTier : KenBurns := ⟨mkRat 8 10, mkRat 6 10, mkRat 3 10⟩

/-- Medium tier of _apply_ken_burns_effect (1.0, 0.8, 0.2). -/
def mediumTier : KenBurns := ⟨1, mkRat 8 10, mkRat 2 10⟩

/-- Slow tier of _apply_ken_burns_effect (1.2, 1.0, 0.15). -/
def slowTier : KenBurns := ⟨mkRat 12 10, 1, mkRat 15 100⟩

/-- Tier selection of _apply_ken_burns_effect (video_maker.py lines
182-196): if duration < 2.0 fast, elif duration < 5.0 medium, else slow. -/
def kenBurnsParams (duration : ℚ) : KenBurns :=
  if duration < 2 then fastTier
  else if duration < 5 then mediumTier
  else slowTier

/-! ### Duration reconciliation and the scene timeline
(video_maker.py, _create_video_with_tts lines 804-991)

Per scene the TTS step yields either no audio file (generation failed or
the scene text was empty: tts_files gets None), an audio file that
AudioFileClip fails to load (the except branch at lines 923-925), or a
loaded audio clip with a measured duration. Lines 901-931 then compute the
adjusted scene duration and the running start offset current_time. -/

/-- The per-scene TTS outcome as seen by the timeline loop. -/
inductive TTSFile where
  | none
  | loadError
  | audio (d : ℚ)
deriving Repr, DecidableEq

/-- Adjusted (effective) scene duration, video_maker.py lines 901-931: a
loaded audio clip with positive measured duration d yields d plus the
0.5 s buffer; otherwise the originally requested scene duration is kept. -/
def adjustedDuration (requested : ℚ) : TTSFile → ℚ
  | .audio d => if 0 < d then d + mkRat 1 2 else requested
  | _ => requested

/-- Whether the scene contributes an audio clip to the composite track:
only a loaded audio file with positive duration is appended to
audio_clips (video_maker.py lines 908-915). -/
def sceneHasAudio : TTSFile → Bool
  | .audio d => decide (0 < d)
  | _ => false

/-- One scene segment of the final timeline: its start offset (the value
of current_time when the scene's audio is placed), its effective duration,
and whether it carries an audio track. -/
structure SceneClip where
  start : ℚ
  duration : ℚ
  hasAudio : Bool
deriving Repr, DecidableEq

/-- The timeline loop of _create_video_with_tts (lines 897-931) with the
running current_time made explicit: each scene is emitted in input order
with the current start offset, and current_time advances by the scene's
adjusted duration. -/
def composeGo : ℚ → List (ℚ × TTSFile) → List SceneClip
  | _, [] => []
  | t, (req, tts) :: rest =>
    ⟨t, adjustedDuration req tts, sceneHasAudio tts⟩ ::
      composeGo (t + adjustedDuration req tts) rest

/-- The full scene timeline, starting from current_time = 0
(video_maker.py line 899). -/
def composeScenes (scenes : List (ℚ × TTSFile)) : List SceneClip :=
  composeGo 0 scenes

/-- Scene lookup with a default, for stating per-index properties. -/
def sceneAt (scenes : List (ℚ × TTSFile)) (i : ℕ) : ℚ × TTSFile :=
  scenes.getD i (0, TTSFile.none)

/-- Timeline segment lookup with a default, for stating per-index
properties. -/
def clipAt (scenes : List (ℚ × TTSFile)) (i : ℕ) : SceneClip :=
  (composeScenes scenes).getD i ⟨0, 0, false⟩

/-- The catch around per-scene TTS generation in _create_video_with_tts
(lines 825-848): only a successful generate_voice call contributes a TTS
file (whose later load is abstracted by measure); a validation error or
provider exhaustion is caught and recorded as None. -/
def pipelineTTS (measure : String → TTSFile) : VoiceCall × List String → TTSFile
  | (.generated _ a, _) => measure a
  | _ => .none

/-! ### Scene fades (video_maker.py lines 875-879 and 318-341)

In _create_video_with_tts each clip i of n gets FadeIn(0.5) iff i > 0 and
FadeOut(0.5) iff i < n - 1. The separate helper
_concatenate_with_transitions instead returns a single clip unchanged and
otherwise gives FadeIn(0.5) only to clip 0 and FadeOut(0.5) to every clip
(both branches of its last if add FadeOut). -/

/-- Fade flags (fade-in, fade-out) applied to clip i of n in
_create_video_with_tts (lines 875-879, repeated verbatim at 964-968). -/
def clipFades (i n : ℕ) : Bool × Bool :=
  (decide (0 < i), decide (i < n - 1))

/-- Fade flags applied to clip i of n by _concatenate_with_transitions
(lines 318-341). -/
def concatFades (i n : ℕ) : Bool × Bool :=
  if n = 1 then (false, false) else (decide (i = 0), true)

/-! ### Batch image generation (image_generator.py lines 1062-1112)

generate_batch_images calls generate_image per prompt; a raised exception
(in particular the all-providers-failed exception) is caught and a locally
drawn placeholder image is created at the scene's output path instead (the
further PIL fallback draws a plain solid image at the same path, so both
fallback branches yield a placeholder artifact for the scene). -/

/-- The image artifact a scene ends up with after generate_batch_images. -/
inductive SceneImage where
  | fromProvider (path : String)
  | placeholder
deriving Repr, DecidableEq

/-- generate_batch_images (image_generator.py lines 1079-1112), with each
scene's generate_image call abstracted to its outcome: success keeps the
provider artifact, failure is caught and replaced by a placeholder. -/
def generate_batch_images (outcomes : List (Except String String)) :
    List SceneImage :=
  outcomes.map fun o =>
    match o with
    | .ok p => .fromProvider p
    | .error _ => .placeholder

/-! ### Pollinations download validation
(image_generator.py, _generate_pollinations_image lines 255-322)

For each candidate URL, up to 3 retries: a 5xx status sleeps and retries
(or moves to the next URL when retries are spent); any other HTTP error
status raises and is caught by the RequestException handler, which also
retries; a timeout retries likewise. A 2xx response is then validated:
the content-type header must contain the substring image, and the written
file must be at least 1000 bytes; a validation failure breaks to the next
candidate URL. Only a validated response is accepted and returned. -/

/-- Does the list of characters contain the substring image (Python's
in operator on the content-type header)? -/
def imageSub : List Char → Bool
  | [] => false
  | c :: rest => "image".data.isPrefixOf (c :: rest) || imageSub rest

/-- Content-type check of line 277-278: the header value contains image. -/
def strContainsImage (ct : String) : Bool := imageSub ct.data

/-- Whether the status code is one of the retried server errors
(line 266). -/
def isServerError (s : ℕ) : Bool := s == 500 || s == 502 || s == 503 || s == 504

/-- What one requests.get inside the retry loop produced. -/
inductive AttemptEvent where
  | timeout
  | requestError (reason : String)
  | response (status : ℕ) (contentType : String) (sizeBytes : ℕ)
deriving Repr, DecidableEq

/-- Where control goes after one attempt of the retry loop. -/
inductive AttemptOutcome where
  | accept
  | retrySame
  | nextUrl
deriving Repr, DecidableEq

/-- One iteration of the retry loop (lines 259-318) at retry index retry
(0-based; retry < 2 means retries remain out of range(3)): timeouts,
request errors and 5xx statuses retry while retries remain, then move on
to the next URL; other error statuses raise into the RequestException
handler and do the same; a good response is accepted only if its
content-type contains image and its size is at least 1000 bytes, and a
validation failure moves to the next URL. -/
def attemptOutcome (retry : ℕ) : AttemptEvent → AttemptOutcome
  | .timeout => if retry < 2 then .retrySame else .nextUrl
  | .requestError _ => if retry < 2 then .retrySame else .nextUrl
  | .response s ct size =>
    if isServerError s then
      (if retry < 2 then .retrySame else .nextUrl)
    else if 400 ≤ s then
      (if retry < 2 then .retrySame else .nextUrl)
    else if strContainsImage ct then
      (if size < 1000 then .nextUrl else .accept)
    else .nextUrl

/-- The retry loop over one URL: the r-th list entry is what the r-th
requests.get produced. Returns whether this URL yielded an accepted
image. -/
def urlLoop : ℕ → List AttemptEvent → Bool
  | _, [] => false
  | r, e :: rest =>
    match attemptOutcome r e with
    | .accept => true
    | .retrySame => urlLoop (r + 1) rest
    | .nextUrl => false

/-- The outer loop over candidate URLs (lines 255-322): the first URL whose
retry loop accepts yields the output path; if every URL fails the call
raises. -/
def pollinationsCall (outputPath : String) : List (List AttemptEvent) →
    Except String String
  | [] => .error "all urls failed"
  | u :: rest =>
    if urlLoop 0 u then .ok outputPath else pollinationsCall outputPath rest

/-- A constant no-audio measure, used to instantiate abstract audio-file
loading in concrete checks. -/
def constNoTTS (_x : String) : TTSFile := TTSFile.none

/-! ### Helper lemmas about the provider fallback loop -/

lemma lastErrorAfter_cons (le : Option String) (nm r : String)
    (rest : List (String × AttemptResult)) :
    lastErrorAfter le ((nm, .failure r) :: rest) = lastErrorAfter (some r) rest := by
  cases rest with
  | nil => simp [lastErrorAfter, reasonOf]
  | cons q qs =>
    rcases hx : (q :: qs).getLast? with _ | x
    · simp [List.getLast?_eq_none_iff] at hx
    · simp [lastErrorAfter, List.getLast?_cons_cons, hx]

lemma runChain_exhausted (ps : List (String × AttemptResult)) :
    ∀ le, allFail ps = true →
      runChain le ps = (.error (lastErrorAfter le ps), ps.map Prod.fst) := by
  induction ps with
  | nil => intro le _; rfl
  | cons p rest ih =>
    intro le h
    obtain ⟨nm, a⟩ := p
    simp only [allFail, List.all_cons, Bool.and_eq_true] at h
    cases a with
    | success art => simp [isFailure] at h
    | failure r =>
      have h2 := ih (some r) (by exact h.2)
      rw [lastErrorAfter_cons]
      simp [runChain, h2]

lemma runChain_first_success (fails : List (String × AttemptResult))
    (nm a : String) (rest : List (String × AttemptResult)) :
    ∀ le, allFail fails = true →
      runChain le (fails ++ (nm, AttemptResult.success a) :: rest) =
        (.ok a, fails.map Prod.fst ++ [nm]) := by
  induction fails with
  | nil => intro le _; rfl
  | cons p fs ih =>
    intro le h
    obtain ⟨n2, b⟩ := p
    simp only [allFail, List.all_cons, Bool.and_eq_true] at h
    cases b with
    | success art => simp [isFailure] at h
    | failure r =>
      have h2 := ih (some r) (by exact h.2)
      simp [runChain, h2]

/-! ### Claim C2: fallback correctness -/

/-- C2: for every ordered provider list in which the first k providers
always fail and provider k+1 succeeds, the generation loop returns the
artifact produced by provider k+1, and the providers invoked are exactly
the first k+1 — the loop returns on the first success without invoking
any later provider (at most one accepted artifact per request). -/
theorem c2_fallback_first_success (fails : List (String × AttemptResult))
    (nm a : String) (rest : List (String × AttemptResult)) (le : Option String)
    (h : allFail fails = true) :
    runChain le (fails ++ (nm, AttemptResult.success a) :: rest) =
      (.ok a, fails.map Prod.fst ++ [nm]) :=
  runChain_first_success fails nm a rest le h

/-- Witness for C2 at a concrete provider list: edge fails, gtts succeeds,
openai is listed after gtts but never invoked. -/
theorem c2_fallback_first_success_witness :
    allFail [("edge", AttemptResult.failure "503")] = true ∧
    runChain none
        ([("edge", AttemptResult.failure "503")] ++
          ("gtts", AttemptResult.success "voice.mp3") ::
            [("openai", AttemptResult.success "unused.mp3")]) =
      (.ok "voice.mp3",
        [("edge", AttemptResult.failure "503")].map Prod.fst ++ ["gtts"]) :=
  ⟨by decide,
   c2_fallback_first_success [("edge", AttemptResult.failure "503")]
     "gtts" "voice.mp3" [("openai", AttemptResult.success "unused.mp3")]
     none (by decide)⟩

/-! ### Claim C5: exhaustion error and its ledger -/

/-- C5 counterexample: the exhaustion error does not carry a per-attempt
ledger. Two exhausted runs whose first providers fail for different raw
reasons produce the same error value, so the error cannot contain one
entry per attempted provider — it retains only the last reason. -/
theorem c5_counterexample :
    (runChain none [("p1", AttemptResult.failure "A"),
                    ("p2", AttemptResult.failure "B")]).1 = .error (some "B") ∧
    (runChain none [("p1", AttemptResult.failure "X"),
                    ("p2", AttemptResult.failure "B")]).1 = .error (some "B") ∧
    ("A" : String) ≠ "X" :=
  ⟨rfl, rfl, by decide⟩

/-- C5 (amended): if every provider in the candidate list fails, the
generation loop attempts every provider once, in order, and raises an
all-providers-failed error that carries only the last attempt's raw
reason (the loop's last_error variable) — not a per-attempt ledger. -/
theorem c5_exhaustion_last_error (ps : List (String × AttemptResult))
    (le : Option String) (h : allFail ps = true) :
    runChain le ps = (.error (lastErrorAfter le ps), ps.map Prod.fst) :=
  runChain_exhausted ps le h

/-- Witness for C5 (amended) at a concrete two-provider list. -/
theorem c5_exhaustion_last_error_witness :
    allFail [("edge", AttemptResult.failure "timeout"),
             ("gtts", AttemptResult.failure "quota")] = true ∧
    runChain none [("edge", AttemptResult.failure "timeout"),
                   ("gtts", AttemptResult.failure "quota")] =
      (.error (lastErrorAfter none
          [("edge", AttemptResult.failure "timeout"),
           ("gtts", AttemptResult.failure "quota")]),
        [("edge", AttemptResult.failure "timeout"),
         ("gtts", AttemptResult.failure "quota")].map Prod.fst) :=
  ⟨by decide,
   c5_exhaustion_last_error
     [("edge", AttemptResult.failure "timeout"),
      ("gtts", AttemptResult.failure "quota")] none (by decide)⟩

/-! ### Claim C10: voice text validation -/

/-- C10: an input text that is empty or only whitespace makes the voice
entry point raise ValueError with no provider invoked (and before any
output path is touched: the raise precedes the makedirs call and the
loop); non-empty text is stripped of surrounding whitespace and the
provider loop runs on the stripped text. -/
theorem c10_voice_text_validation (text : String)
    (ps : List (String × AttemptResult)) :
    (pyStrip text = "" → generate_voice text ps = (.valueError, [])) ∧
    (pyStrip text ≠ "" →
      generate_voice text ps = dispatchProviders (pyStrip text) ps) := by
  constructor
  · intro h
    by_cases he : text = ""
    · simp [generate_voice, he]
    · simp [generate_voice, he, h]
  · intro h
    have he : text ≠ "" := by
      intro he
      rw [he] at h
      exact h rfl
    simp [generate_voice, he, h]

/-- Witness for C10: a whitespace-only text raises with no provider
invoked; a padded text is synthesized from its stripped form. -/
theorem c10_voice_text_validation_witness :
    generate_voice "   " [("edge", AttemptResult.success "a.mp3")] =
      (.valueError, []) ∧
    generate_voice " xin chao " [("edge", AttemptResult.success "a.mp3")] =
      dispatchProviders "xin chao" [("edge", AttemptResult.success "a.mp3")] := by
  constructor
  · exact (c10_voice_text_validation "   "
      [("edge", AttemptResult.success "a.mp3")]).1 (by decide)
  · have h := (c10_voice_text_validation " xin chao "
      [("edge", AttemptResult.success "a.mp3")]).2 (by decide)
    have e : pyStrip " xin chao " = "xin chao" := by decide
    rw [e] at h
    exact h

/-! ### Claim C1: duration reconciliation -/

/-- C1: a scene whose generated narration audio measures a positive
duration d gets effective duration exactly d plus the 0.5 s buffer; a
scene with no audio asset (generation failed or the clip failed to load)
or with a non-positive measured duration keeps its requested duration
unchanged. -/
theorem c1_duration_reconciliation (req d : ℚ) :
    (0 < d → adjustedDuration req (TTSFile.audio d) = d + mkRat 1 2) ∧
    adjustedDuration req TTSFile.none = req ∧
    adjustedDuration req TTSFile.loadError = req ∧
    (d ≤ 0 → adjustedDuration req (TTSFile.audio d) = req) := by
  refine ⟨fun h => ?_, rfl, rfl, fun h => ?_⟩
  · simp [adjustedDuration, h]
  · simp [adjustedDuration, not_lt.mpr h]

/-- Witness for C1 at requested duration 3 with audio durations 8 and 0. -/
theorem c1_duration_reconciliation_witness :
    (0 : ℚ) < 8 ∧
    adjustedDuration 3 (TTSFile.audio 8) = 8 + mkRat 1 2 ∧
    adjustedDuration 3 TTSFile.none = 3 ∧
    adjustedDuration 3 (TTSFile.audio 0) = 3 :=
  ⟨by decide,
   (c1_duration_reconciliation 3 8).1 (by decide),
   (c1_duration_reconciliation 3 8).2.1,
   (c1_duration_reconciliation 3 0).2.2.2 (by decide)⟩

/-! ### Claim C7: Ken Burns speed tier boundaries -/

/-- C7 counterexample: a duration of exactly 5 s does not fall in the
medium tier — the source's elif duration < 5.0 sends it to the slow
tier. -/
theorem c7_counterexample :
    kenBurnsParams 5 = slowTier ∧ slowTier ≠ mediumTier := by decide

/-- C7 (amended): duration < 2 s gives the fast tier (0.8, 0.6, 0.30);
2 s ≤ duration < 5 s gives the medium tier (1.0, 0.8, 0.20); duration
≥ 5 s gives the slow tier (1.2, 1.0, 0.15) — in particular exactly 5 s
falls in the slow tier, not the medium one. -/
theorem c7_tier_selection (d : ℚ) :
    (d < 2 → kenBurnsParams d = fastTier) ∧
    (2 ≤ d → d < 5 → kenBurnsParams d = mediumTier) ∧
    (5 ≤ d → kenBurnsParams d = slowTier) := by
  refine ⟨fun h => ?_, fun h1 h2 => ?_, fun h => ?_⟩
  · simp [kenBurnsParams, h]
  · simp [kenBurnsParams, not_lt.mpr h1, h2]
  · have h2 : ¬ d < 2 := not_lt.mpr (le_trans (by norm_num) h)
    have h5 : ¬ d < 5 := not_lt.mpr h
    simp [kenBurnsParams, h2, h5]

/-- Witness for C7 (amended) at durations 1, 3 and 5. -/
theorem c7_tier_selection_witness :
    kenBurnsParams 1 = fastTier ∧ kenBurnsParams 3 = mediumTier ∧
    kenBurnsParams 5 = slowTier :=
  ⟨(c7_tier_selection 1).1 (by decide),
   (c7_tier_selection 3).2.1 (by decide) (by decide),
   (c7_tier_selection 5).2.2 (by decide)⟩

/-! ### Claim C9: fades at scene boundaries -/

/-- C9 counterexample: in a two-scene composition the first clip gets no
fade-in and the last clip gets no fade-out, so the first scene's start
and the last scene's end do not fade from/to black at all. -/
theorem c9_counterexample :
    (clipFades 0 2).1 = false ∧ (clipFades 1 2).2 = false := by decide

/-- C9 (amended): when composing n ≥ 2 scene clips in the TTS composition
path, every interior scene boundary gets a 0.5 s cross-fade (fade-out of
the earlier clip and fade-in of the later one), but the first scene's
start and the last scene's end have no fade at all; the separate
_concatenate_with_transitions helper instead fades in only the first clip
and fades out every clip. -/
theorem c9_boundary_fades (n i : ℕ) (hn : 2 ≤ n) (hi : i < n - 1) :
    (clipFades i n).2 = true ∧ (clipFades (i + 1) n).1 = true ∧
    (clipFades 0 n).1 = false ∧ (clipFades (n - 1) n).2 = false ∧
    concatFades i n = (decide (i = 0), true) := by
  refine ⟨by simp [clipFades, hi], by simp [clipFades], by simp [clipFades],
    by simp [clipFades], ?_⟩
  have h1 : n ≠ 1 := by omega
  simp [concatFades, h1]

/-- Witness for C9 (amended) at the interior boundary of a three-scene
composition. -/
theorem c9_boundary_fades_witness :
    (2 ≤ 3 ∧ 1 < 3 - 1) ∧
    ((clipFades 1 3).2 = true ∧ (clipFades 2 3).1 = true ∧
      (clipFades 0 3).1 = false ∧ (clipFades 2 3).2 = false ∧
      concatFades 1 3 = (decide (1 = 0), true)) :=
  ⟨by decide, c9_boundary_fades 3 1 (by decide) (by decide)⟩

/-! ### Helper lemmas about the scene timeline -/

lemma composeGo_length (s : List (ℚ × TTSFile)) :
    ∀ t, (composeGo t s).length = s.length := by
  induction s with
  | nil => intro t; rfl
  | cons a rest ih =>
    intro t
    obtain ⟨req, tts⟩ := a
    simp [composeGo, ih]

lemma composeGo_head_start (s : List (ℚ × TTSFile)) (t : ℚ) (c : SceneClip)
    (h : (composeGo t s)[0]? = some c) : c.start = t := by
  cases s with
  | nil => simp [composeGo] at h
  | cons a rest =>
    obtain ⟨req, tts⟩ := a
    simp only [composeGo, List.getElem?_cons_zero, Option.some_inj] at h
    rw [← h]

lemma composeGo_getElem (s : List (ℚ × TTSFile)) :
    ∀ (t : ℚ) (i : ℕ) (sc : ℚ × TTSFile), s[i]? = some sc →
      ∃ c : SceneClip, (composeGo t s)[i]? = some c ∧
        c.duration = adjustedDuration sc.1 sc.2 ∧
        c.hasAudio = sceneHasAudio sc.2 := by
  induction s with
  | nil => intro t i sc h; simp at h
  | cons a rest ih =>
    intro t i sc h
    obtain ⟨req, tts⟩ := a
    cases i with
    | zero =>
      simp only [List.getElem?_cons_zero, Option.some_inj] at h
      refine ⟨⟨t, adjustedDuration req tts, sceneHasAudio tts⟩, ?_, ?_, ?_⟩
      · simp [composeGo]
      · rw [← h]
      · rw [← h]
    | succ n =>
      simp only [List.getElem?_cons_succ] at h
      obtain ⟨c, hc, h1, h2⟩ := ih (t + adjustedDuration req tts) n sc h
      exact ⟨c, by simpa [composeGo] using hc, h1, h2⟩

lemma composeGo_contig (s : List (ℚ × TTSFile)) :
    ∀ (t : ℚ) (i : ℕ) (ci ci1 : SceneClip), (composeGo t s)[i]? = some ci →
      (composeGo t s)[i + 1]? = some ci1 →
      ci.start + ci.duration = ci1.start := by
  induction s with
  | nil => intro t i ci ci1 h _; simp [composeGo] at h
  | cons a rest ih =>
    intro t i ci ci1 h h1
    obtain ⟨req, tts⟩ := a
    cases i with
    | zero =>
      simp only [composeGo, List.getElem?_cons_zero, Option.some_inj] at h
      simp only [composeGo, List.getElem?_cons_succ] at h1
      have hs := composeGo_head_start rest (t + adjustedDuration req tts) ci1 h1
      rw [← h, hs]
    | succ n =>
      simp only [composeGo, List.getElem?_cons_succ] at h h1
      exact ih (t + adjustedDuration req tts) n ci ci1 h h1

lemma composeScenes_clipAt (scenes : List (ℚ × TTSFile)) (i : ℕ)
    (hi : i < scenes.length) :
    (composeScenes scenes)[i]? = some (clipAt scenes i) ∧
    scenes[i]? = some (sceneAt scenes i) := by
  have h1 : scenes[i]? = some (sceneAt scenes i) := by
    rw [sceneAt, List.getD_eq_getElem?_getD, List.getElem?_eq_getElem hi]
    rfl
  have hlen : i < (composeScenes scenes).length := by
    rw [composeScenes, composeGo_length]; exact hi
  have h2 : (composeScenes scenes)[i]? = some (clipAt scenes i) := by
    rw [clipAt, List.getD_eq_getElem?_getD, List.getElem?_eq_getElem hlen]
    rfl
  exact ⟨h2, h1⟩

/-! ### Claim C6: timeline order and contiguity -/

/-- C6: for any list of scenes built into the timeline, the i-th segment
corresponds to the i-th scene (segments are emitted in scene order, with
the scene's reconciled duration and audio flag, whether or not it has
audio), and consecutive start offsets are contiguous: the i-th segment's
start plus its effective duration equals the (i+1)-th segment's start. -/
theorem c6_timeline_contiguous (scenes : List (ℚ × TTSFile)) (i : ℕ)
    (h : i + 1 < scenes.length) :
    (composeScenes scenes).length = scenes.length ∧
    (clipAt scenes i).duration =
      adjustedDuration (sceneAt scenes i).1 (sceneAt scenes i).2 ∧
    (clipAt scenes i).hasAudio = sceneHasAudio (sceneAt scenes i).2 ∧
    (clipAt scenes i).start + (clipAt scenes i).duration =
      (clipAt scenes (i + 1)).start := by
  have hi : i < scenes.length := Nat.lt_of_succ_lt h
  obtain ⟨hci, hsi⟩ := composeScenes_clipAt scenes i hi
  obtain ⟨hci1, _⟩ := composeScenes_clipAt scenes (i + 1) h
  obtain ⟨c, hc, hd, ha⟩ := composeGo_getElem scenes 0 i _ hsi
  have hcc : c = clipAt scenes i := by
    rw [composeScenes] at hci
    rw [hci] at hc
    injection hc with hc
    exact hc.symm
  refine ⟨composeGo_length scenes 0, ?_, ?_, ?_⟩
  · rw [← hcc]; exact hd
  · rw [← hcc]; exact ha
  · exact composeGo_contig scenes 0 i _ _ hci hci1

/-- Witness for C6 on the spec's three-scene scenario: requested durations
3, 3, 3 with a 7.2 s narration on the middle scene. -/
theorem c6_timeline_contiguous_witness :
    (1 + 1 <
      [((3 : ℚ), TTSFile.none), (3, TTSFile.audio (mkRat 36 5)),
        (3, TTSFile.none)].length) ∧
    ((composeScenes [((3 : ℚ), TTSFile.none), (3, TTSFile.audio (mkRat 36 5)),
        (3, TTSFile.none)]).length = 3 ∧
      (clipAt [((3 : ℚ), TTSFile.none), (3, TTSFile.audio (mkRat 36 5)),
        (3, TTSFile.none)] 1).duration =
        adjustedDuration 3 (TTSFile.audio (mkRat 36 5)) ∧
      (clipAt [((3 : ℚ), TTSFile.none), (3, TTSFile.audio (mkRat 36 5)),
        (3, TTSFile.none)] 1).hasAudio = true ∧
      (clipAt [((3 : ℚ), TTSFile.none), (3, TTSFile.audio (mkRat 36 5)),
        (3, TTSFile.none)] 1).start +
        (clipAt [((3 : ℚ), TTSFile.none), (3, TTSFile.audio (mkRat 36 5)),
          (3, TTSFile.none)] 1).duration =
        (clipAt [((3 : ℚ), TTSFile.none), (3, TTSFile.audio (mkRat 36 5)),
          (3, TTSFile.none)] 2).start) := by
  constructor
  · decide
  · have h := c6_timeline_contiguous
      [((3 : ℚ), TTSFile.none), (3, TTSFile.audio (mkRat 36 5)),
        (3, TTSFile.none)] 1 (by decide)
    refine ⟨h.1, ?_, ?_, h.2.2.2⟩
    · have := h.2.1
      rw [show sceneAt [((3 : ℚ), TTSFile.none),
          (3, TTSFile.audio (mkRat 36 5)), (3, TTSFile.none)] 1 =
          (3, TTSFile.audio (mkRat 36 5)) from by decide] at this
      exact this
    · have := h.2.2.1
      rw [show sceneAt [((3 : ℚ), TTSFile.none),
          (3, TTSFile.audio (mkRat 36 5)), (3, TTSFile.none)] 1 =
          (3, TTSFile.audio (mkRat 36 5)) from by decide] at this
      rw [this]
      decide

/-! ### Claim C4: degraded-audio scenes are non-fatal -/

/-- C4: a scene whose audio generation exhausts all providers does not
abort the run — the exception is caught and the scene's TTS entry becomes
None, the scene is still composed (one timeline segment per scene), its
effective duration is its requested duration unchanged, and it carries no
audio track. -/
theorem c4_degraded_audio (scenes : List (ℚ × TTSFile)) (i : ℕ) (req : ℚ)
    (text : String) (ps : List (String × AttemptResult))
    (measure : String → TTSFile)
    (hs : scenes[i]? = some (req, TTSFile.none))
    (hfail : allFail ps = true) :
    pipelineTTS measure (generate_voice text ps) = TTSFile.none ∧
    (composeScenes scenes).length = scenes.length ∧
    (clipAt scenes i).duration = req ∧
    (clipAt scenes i).hasAudio = false := by
  have hpipe : pipelineTTS measure (generate_voice text ps) = TTSFile.none := by
    by_cases h1 : text = ""
    · simp [generate_voice, h1, pipelineTTS]
    · by_cases h2 : pyStrip text = ""
      · simp [generate_voice, h1, h2, pipelineTTS]
      · have h3 := runChain_exhausted ps none hfail
        simp [generate_voice, h1, h2, dispatchProviders, h3, pipelineTTS]
  have hi : i < scenes.length := by
    by_contra hcon
    rw [List.getElem?_eq_none (Nat.le_of_not_lt hcon)] at hs
    exact Option.noConfusion hs
  obtain ⟨hci, hsi⟩ := composeScenes_clipAt scenes i hi
  obtain ⟨c, hc, hd, ha⟩ := composeGo_getElem scenes 0 i _ hs
  have hcc : c = clipAt scenes i := by
    rw [composeScenes] at hci
    rw [hci] at hc
    injection hc with hc
    exact hc.symm
  refine ⟨hpipe, composeGo_length scenes 0, ?_, ?_⟩
  · rw [← hcc, hd]; rfl
  · rw [← hcc, ha]; rfl

/-- Witness for C4: second scene of a two-scene run with every voice
provider failing keeps its requested duration 4 and has no audio. -/
theorem c4_degraded_audio_witness :
    ([((3 : ℚ), TTSFile.audio 2), (4, TTSFile.none)][1]? =
      some ((4 : ℚ), TTSFile.none)) ∧
    allFail [("edge", AttemptResult.failure "403")] = true ∧
    (pipelineTTS constNoTTS
        (generate_voice "hello" [("edge", AttemptResult.failure "403")]) =
      TTSFile.none ∧
      (composeScenes [((3 : ℚ), TTSFile.audio 2), (4, TTSFile.none)]).length = 2 ∧
      (clipAt [((3 : ℚ), TTSFile.audio 2), (4, TTSFile.none)] 1).duration = 4 ∧
      (clipAt [((3 : ℚ), TTSFile.audio 2), (4, TTSFile.none)] 1).hasAudio =
        false) :=
  ⟨by decide, by decide,
   c4_degraded_audio [((3 : ℚ), TTSFile.audio 2), (4, TTSFile.none)] 1 4
     "hello" [("edge", AttemptResult.failure "403")] constNoTTS
     (by decide) (by decide)⟩

/-! ### Claim C3: image exhaustion and placeholders -/

/-- C3 counterexample: a scene whose image generation fails (in
particular by provider exhaustion) does not abort the batch — the
exception is caught and a locally drawn placeholder image is substituted
for the scene, so the run continues instead of propagating the error. -/
theorem c3_counterexample :
    generate_batch_images [Except.error "all providers failed"] =
      [SceneImage.placeholder] := rfl

/-- C3 (amended): generate_image itself propagates exhaustion as an error
carrying the last failure reason and substitutes nothing, but
generate_batch_images — the per-scene batch caller — catches the error
and substitutes a locally drawn placeholder image for the failed scene,
continuing the run: the batch always yields one artifact per scene,
provider artifacts for successes and placeholders for failures. -/
theorem c3_image_exhaustion (outs : List (Except String String)) (i : ℕ)
    (ps : List (String × AttemptResult)) (le : Option String)
    (hfail : allFail ps = true) :
    (generate_batch_images outs).length = outs.length ∧
    (∀ e, outs[i]? = some (.error e) →
      (generate_batch_images outs)[i]? = some SceneImage.placeholder) ∧
    (∀ p, outs[i]? = some (.ok p) →
      (generate_batch_images outs)[i]? = some (SceneImage.fromProvider p)) ∧
    (runChain le ps).1 = .error (lastErrorAfter le ps) := by
  refine ⟨by simp [generate_batch_images], fun e he => ?_, fun p hp => ?_, ?_⟩
  · simp [generate_batch_images, List.getElem?_map, he]
  · simp [generate_batch_images, List.getElem?_map, hp]
  · rw [runChain_exhausted ps le hfail]

/-- Witness for C3 (amended): a two-scene batch where the first scene's
generation failed and the second succeeded. -/
theorem c3_image_exhaustion_witness :
    allFail [("pollinations", AttemptResult.failure "overloaded")] = true ∧
    ((generate_batch_images [Except.error "boom", Except.ok "scene_02.png"]).length
        = 2 ∧
      (generate_batch_images [Except.error "boom", Except.ok "scene_02.png"])[0]? =
        some SceneImage.placeholder ∧
      (generate_batch_images [Except.error "boom", Except.ok "scene_02.png"])[1]? =
        some (SceneImage.fromProvider "scene_02.png") ∧
      (runChain none [("pollinations", AttemptResult.failure "overloaded")]).1 =
        .error (lastErrorAfter none
          [("pollinations", AttemptResult.failure "overloaded")])) := by
  have h0 := c3_image_exhaustion [Except.error "boom", Except.ok "scene_02.png"]
    0 [("pollinations", AttemptResult.failure "overloaded")] none (by decide)
  have h1 := c3_image_exhaustion [Except.error "boom", Except.ok "scene_02.png"]
    1 [("pollinations", AttemptResult.failure "overloaded")] none (by decide)
  exact ⟨by decide,
    h0.1, h0.2.1 "boom" rfl, h1.2.2.1 "scene_02.png" rfl,
    h0.2.2.2⟩

/-! ### Claim C8: image artifact validation -/

/-- C8: an image download attempt is accepted exactly when the response
has a non-error status, its content-type contains image, and the written
file is at least 1000 bytes; a good-status response failing validation
moves on to the next candidate URL (and a URL whose retry loop fails
makes the call continue with the remaining candidate URLs rather than
terminate). -/
theorem c8_image_validation (r s sz : ℕ) (ct : String) (op : String)
    (u : List AttemptEvent) (rest : List (List AttemptEvent))
    (hu : urlLoop 0 u = false) :
    (attemptOutcome r (.response s ct sz) = .accept ↔
      isServerError s = false ∧ s < 400 ∧ strContainsImage ct = true ∧
        1000 ≤ sz) ∧
    (isServerError s = false → s < 400 →
      strContainsImage ct = false ∨ sz < 1000 →
      attemptOutcome r (.response s ct sz) = .nextUrl) ∧
    pollinationsCall op (u :: rest) = pollinationsCall op rest := by
  refine ⟨?_, ?_, ?_⟩
  · simp only [attemptOutcome]
    split_ifs with h1 h2 h3 h4 h5 <;>
      simp_all [Nat.not_le, Nat.not_lt]
  · intro hs1 hs2 hval
    rcases hval with hv | hv
    · simp [attemptOutcome, hs1, Nat.not_le.mpr hs2, hv]
    · by_cases hct : strContainsImage ct
      · simp [attemptOutcome, hs1, Nat.not_le.mpr hs2, hct, hv]
      · simp [attemptOutcome, hs1, Nat.not_le.mpr hs2, hct]
  · simp [pollinationsCall, hu]

/-- Witness for C8: a valid image response is accepted; an undersized one
is not; a URL serving a non-image page makes the call move on to the next
candidate URL. -/
theorem c8_image_validation_witness :
    urlLoop 0 [AttemptEvent.response 200 "text/html" 5000] = false ∧
    attemptOutcome 0 (AttemptEvent.response 200 "image/jpeg" 2048) =
      AttemptOutcome.accept ∧
    attemptOutcome 1 (AttemptEvent.response 200 "image/jpeg" 500) =
      AttemptOutcome.nextUrl ∧
    pollinationsCall "scene_01.png"
        [[AttemptEvent.response 200 "text/html" 5000],
          [AttemptEvent.response 200 "image/jpeg" 2048]] =
      pollinationsCall "scene_01.png"
        [[AttemptEvent.response 200 "image/jpeg" 2048]] :=
  ⟨by decide,
   (c8_image_validation 0 200 2048 "image/jpeg" "scene_01.png"
      [AttemptEvent.response 200 "text/html" 5000]
      [[AttemptEvent.response 200 "image/jpeg" 2048]] (by decide)).1.mpr
     (by decide),
   (c8_image_validation 1 200 500 "image/jpeg" "scene_01.png"
      [AttemptEvent.response 200 "text/html" 5000]
      [[AttemptEvent.response 200 "image/jpeg" 2048]] (by decide)).2.1
     (by decide) (by decide) (Or.inr (by decide)),
   (c8_image_validation 0 200 2048 "image/jpeg" "scene_01.png"
      [AttemptEvent.response 200 "text/html" 5000]
      [[AttemptEvent.response 200 "image/jpeg" 2048]] (by decide)).2.2⟩

end HLCV
